import Mathlib

/-!
Verification of the SARA-2 local model lifecycle manager (`src/ai/nova_ai.py`,
`src/ai/local_ai.py`) against its natural-language specification.

The Python classes `NovaAI` and `LocalAI` are shallowly embedded below:
pure helpers become Lean functions over `ℚ` (the code's GB floats carry
exact small values), the mutable object state becomes the `AIState`
structure, callback emissions and device-cache operations become an
explicit `Event` trace, and the fallible external collaborators
(Hugging Face tokenizer/weight loading, the generation engine) are
parameterised by environments (`LoadEnv`, `GenEnv`) that say whether each
external call succeeds or raises.  Exception handling in the source is
embedded by the corresponding branch structure: a `try/except` block
becomes a case split on the environment's failure fields.
-/

namespace SARA

/-- `NovaAI.MODELS` / `LocalAI.AVAILABLE_MODELS`: the model registry,
identical in both classes (short key ↦ Hugging Face model id), in source
declaration order. -/
def MODELS : List (String × String) :=
  [("mistral-7b", "mistralai/Mistral-7B-Instruct-v0.2"),
   ("phi3-mini", "microsoft/Phi-3.5-mini-instruct"),
   ("deepseek-1.5b", "deepseek-ai/DeepSeek-R1-Distill-Qwen-1.5B"),
   ("qwen2.5-1.5b", "Qwen/Qwen2.5-1.5B-Instruct")]

/-- `NovaAI.VRAM_REQ_GB` / `LocalAI.MODEL_VRAM_REQ_GB`: estimated memory
footprint (GB) per registry key, identical in both classes, in source
declaration order. -/
def MODEL_VRAM_REQ_GB : List (String × ℚ) :=
  [("mistral-7b", 6), ("phi3-mini", 3), ("deepseek-1.5b", 2), ("qwen2.5-1.5b", 3/2)]

/-- Stable insertion (descending by the `ℚ` component): the element being
inserted precedes existing elements of equal weight, matching Python's
stable `sorted`. -/
def insertByDesc (p : String × ℚ) : List (String × ℚ) → List (String × ℚ)
  | [] => [p]
  | q :: rest => if q.2 ≤ p.2 then p :: q :: rest else q :: insertByDesc p rest

/-- Stable sort, descending by footprint: `sorted(items, key=lambda x: -x[1])`. -/
def sortByDesc : List (String × ℚ) → List (String × ℚ)
  | [] => []
  | p :: rest => insertByDesc p (sortByDesc rest)

/-- Python `min(d, key=d.get)`: the first key attaining the minimal value.
The accumulator is replaced only on strict improvement, so ties keep the
earlier entry, as Python's `min` does. -/
def minKeyAux (best : String × ℚ) : List (String × ℚ) → String
  | [] => best.1
  | q :: rest => if q.2 < best.2 then minKeyAux q rest else minKeyAux best rest

/-- `min(self.MODEL_VRAM_REQ_GB, key=self.MODEL_VRAM_REQ_GB.get)` over a
(nonempty) association list. -/
def minKey : List (String × ℚ) → Option String
  | [] => none
  | p :: rest => some (minKeyAux p rest)

/-- The `for key, req in candidates: if req <= limit: return key` loop of
`auto_select_model_key`. -/
def findFit (limit : ℚ) : List (String × ℚ) → Option String
  | [] => none
  | (key, req) :: rest => if req ≤ limit then some key else findFit limit rest

/-- The registry sorted by descending footprint, as built inside
`auto_select_model_key`. -/
def candidates : List (String × ℚ) := sortByDesc MODEL_VRAM_REQ_GB

/-- The selection body of `auto_select_model_key`: walk the candidates in
descending footprint order, return the first that fits the limit, falling
back to the smallest-footprint key.  (The registry is nonempty, so the
fallback `getD ""` default is never consulted.) -/
def select_best_fit (limit : ℚ) : String :=
  match findFit limit candidates with
  | some key => key
  | none => (minKey MODEL_VRAM_REQ_GB).getD ""

/-- `limit = self.vram_limit_gb or detected`: Python `or` on the stored
optional ceiling — `None` and `0.0` are falsy, any other float is taken
as-is.  (`NovaAI` additionally guards the comparison with `(limit or 0)`,
which is the identity on `ℚ`.) -/
def effective_limit (vram_limit_gb : Option ℚ) (detected : ℚ) : ℚ :=
  match vram_limit_gb with
  | none => detected
  | some c => if c = 0 then detected else c

/-- Modelled from the spec (not the source), for the refinement comparison
of claim C5: "`effective_limit(user_ceiling)` returns
`min(detected, user_ceiling)` when both are positive, else whichever is
set, else 0.0". -/
def effective_limit_spec (user_ceiling : Option ℚ) (detected : ℚ) : ℚ :=
  match user_ceiling with
  | some c =>
      if 0 < c ∧ 0 < detected then min detected c
      else if 0 < c then c
      else if 0 < detected then detected else 0
  | none => if 0 < detected then detected else 0

/-- `detect_vram_gb`: 0.0 when CUDA is absent or CPU is forced, else the
device's total memory in GB. -/
def detect_vram_gb (cuda_available : Bool) (force_cpu : Bool) (total_memory_gb : ℚ) : ℚ :=
  if !cuda_available || force_cpu then 0 else total_memory_gb

/-- `auto_select_model_key`, with the effective limit factored out of its
first line. -/
def auto_select_model_key (vram_limit_gb : Option ℚ) (detected : ℚ) : String :=
  select_best_fit (effective_limit vram_limit_gb detected)

/-- `set_vram_limit(gb)`: store `float(gb)` only for a positive `gb`;
`None`, zero and negative arguments clear the stored ceiling.  Both
classes implement the same condition. -/
def set_vram_limit (gb : Option ℚ) : Option ℚ :=
  match gb with
  | none => none
  | some g => if g ≤ 0 then none else some g

/-! ## Observable events

Each callback emission (`_emit_progress`, `_emit_status`, `_emit_loaded`,
`_emit_benchmark`, `_emit_vram`) and each explicit device/GC operation
(`torch.cuda.empty_cache`, `torch.cuda.synchronize`,
`torch.cuda.ipc_collect`, `gc.collect`) is recorded as one trace event.
`_emit` wraps every callback in `try/except: pass`, so emission never
raises back into the manager; an `Event` in the trace records that the
emission was attempted. -/

inductive Event where
  | progress (percent : ℕ)
  | status (msg : String)
  | loaded
  | benchmark (tps : ℚ)
  | vram (used total : ℚ)
  | empty_cache
  | cuda_sync
  | ipc_collect
  | gc_collect
  deriving DecidableEq

/-- `_emit_progress`: `int(max(0, min(100, v)))`. -/
def emit_progress (v : ℤ) : Event :=
  Event.progress (max 0 (min 100 v)).toNat

/-- The mutable attributes of a `NovaAI` / `LocalAI` instance.
Opaque runtime handles are represented by the name of what they hold:
`model`/`tokenizer` store the Hugging Face model id they were created
from (`none` = Python `None`), and `tokenizer_cache` the set of model
names with a cached tokenizer.  The idle `threading.Timer` is represented
by whether one is armed plus a count of arm operations. -/
structure AIState where
  model_key : String
  model_name : String
  model : Option String
  tokenizer : Option String
  tokenizer_cache : List String
  device : Option String
  force_cpu : Bool
  vram_limit_gb : Option ℚ
  idle_unload_seconds : ℤ
  is_loaded : Bool
  is_loading : Bool
  idle_armed : Bool
  timer_resets : ℕ
  deriving DecidableEq

/-- Environment for one load operation: whether CUDA is available and
whether each fallible external call raises (`some e` = raises with
message `e`), plus the values the benchmark and the VRAM query report. -/
structure LoadEnv where
  cuda : Bool
  tokenizer_exc : Option String
  weights_exc : Option String
  warmup_exc : Option String
  bench_tps : ℚ
  vram_used : ℚ
  vram_total : ℚ
  deriving DecidableEq

/-- How one `model.generate(...)` call inside `generate` ends: raising
`torch.cuda.OutOfMemoryError` (rendered as `e`), raising some other
exception, or returning text. -/
inductive GenFailure where
  | oom (e : String)
  | exc (e : String)
  deriving DecidableEq

/-- The keyword arguments `generate` passes to `model.generate`. -/
structure GenParams where
  max_new_tokens : ℕ
  do_sample : Bool
  temperature : Option ℚ
  top_p : Option ℚ
  top_k : Option ℕ
  deriving DecidableEq

/-- Environment for one generation call.  `greedy` is the decoded text
the engine produces under deterministic (greedy) decoding — a function of
the formatted input only — while `sample` additionally consumes the
sampling parameters and a fresh entropy draw `rng`; `fail` says whether
the engine call raises instead. -/
structure GenEnv where
  fail : Option GenFailure
  greedy : String → String
  sample : String → GenParams → ℕ → String

/-- `_start_idle_timer` / `_cancel_idle_timer`: cancel any armed timer,
then arm a new one unless `idle_unload_seconds` is zero or negative. -/
def start_idle_timer (s : AIState) : AIState :=
  let s := { s with idle_armed := false }
  if s.idle_unload_seconds ≤ 0 then s
  else { s with idle_armed := true, timer_resets := s.timer_resets + 1 }

/-- Whether `pat` occurs as a contiguous run inside the character list. -/
def isSubChars (pat : List Char) : List Char → Bool
  | [] => pat.isEmpty
  | c :: rest => pat.isPrefixOf (c :: rest) || isSubChars pat rest

/-- Substring containment, as Python's `in` on strings. -/
def strContainsSub (s pat : String) : Bool :=
  isSubChars pat.data s.data

/-- Python `str.strip()`: drop leading and trailing whitespace. -/
def pyStrip (s : String) : String :=
  ⟨((s.data.dropWhile Char.isWhitespace).reverse.dropWhile Char.isWhitespace).reverse⟩

/-- Left-to-right, non-overlapping replacement of `pat` by `rep` over a
character list; the fuel (initially the list length) only bounds the
recursion and is never exhausted for a nonempty `pat`. -/
def replaceChars (pat rep : List Char) : ℕ → List Char → List Char
  | _, [] => []
  | 0, l => l
  | fuel + 1, c :: rest =>
      if pat.isPrefixOf (c :: rest) then
        rep ++ replaceChars pat rep fuel ((c :: rest).drop pat.length)
      else
        c :: replaceChars pat rep fuel rest

/-- Python `s.replace(pat, rep)` (also used to embed
`template.format(prompt=...)`, which substitutes the `"{prompt}"`
placeholder); an empty pattern leaves the string unchanged — every use in
the source has a nonempty pattern. -/
def pyReplace (s pat rep : String) : String :=
  if pat.data.isEmpty then s
  else ⟨replaceChars pat.data rep.data s.data.length s.data⟩

namespace NovaAI

/-- `NovaAI.__init__`: rejects an unregistered `model_key` (Python raises
`ValueError("Unknown model key")`), otherwise builds the initial
attribute state. -/
def mk (model_key : String) (force_cpu : Bool) (vram_limit_gb : Option ℚ)
    (idle_unload_seconds : ℤ) : Except String AIState :=
  match MODELS.lookup model_key with
  | none => .error "Unknown model key"
  | some name =>
      .ok { model_key := model_key, model_name := name, model := none,
            tokenizer := none, tokenizer_cache := [], device := none,
            force_cpu := force_cpu, vram_limit_gb := vram_limit_gb,
            idle_unload_seconds := idle_unload_seconds,
            is_loaded := false, is_loading := false,
            idle_armed := false, timer_resets := 0 }

/-- `NovaAI.unload`: emit status and 5%, drop the weights handle, force a
GC pass, clear the CUDA cache and synchronize when CUDA is available;
the `finally` clause clears `is_loaded` and `_device` and emits 15%.
Everything inside is wrapped so `unload` itself never raises. -/
def unload (cuda : Bool) (s : AIState) : AIState × List Event :=
  ({ s with model := none, is_loaded := false, device := none },
   [Event.status "Unloading model...", emit_progress 5, Event.gc_collect] ++
     (if cuda then [Event.empty_cache, Event.cuda_sync] else []) ++
     [emit_progress 15])

/-- `NovaAI._load_tokenizer`: status + 30%, return the cached tokenizer
when one exists for the current model name (40%), otherwise call
`AutoTokenizer.from_pretrained` — which may raise (`some e` in the
result's first component) — and cache the result (40%). -/
def tokenizer_step (env : LoadEnv) (s : AIState) :
    Option String × AIState × List Event :=
  if s.model_name ∈ s.tokenizer_cache then
    (none, s,
     [Event.status "Loading tokenizer...", emit_progress 30, emit_progress 40])
  else
    match env.tokenizer_exc with
    | some e =>
        (some e, s, [Event.status "Loading tokenizer...", emit_progress 30])
    | none =>
        (none, { s with tokenizer_cache := s.model_name :: s.tokenizer_cache },
         [Event.status "Loading tokenizer...", emit_progress 30, emit_progress 40])

/-- `NovaAI._load_model_weights`: status + 55%, record the chosen device
(`_device` is assigned before `from_pretrained` runs, so it survives a
weight-load failure), then call `AutoModelForCausalLM.from_pretrained` —
which may raise — and on success emit 80% and "Finalizing...". -/
def weights_step (env : LoadEnv) (s : AIState) :
    Option String × AIState × List Event :=
  let use_gpu := env.cuda && !s.force_cpu
  let s1 := { s with device := some (if use_gpu then "cuda" else "cpu") }
  match env.weights_exc with
  | some e =>
      (some e, s1, [Event.status "Loading model weights...", emit_progress 55])
  | none =>
      (none, s1,
       [Event.status "Loading model weights...", emit_progress 55,
        emit_progress 80, Event.status "Finalizing..."])

/-- `NovaAI._emit_vram`: one `vram` emission — `(0.0, 0.0)` when CUDA is
absent or CPU forced, else the allocator's (used, total) readings. -/
def vram_event (env : LoadEnv) (force_cpu : Bool) : Event :=
  Event.vram (if !env.cuda || force_cpu then 0 else env.vram_used)
             (if !env.cuda || force_cpu then 0 else env.vram_total)

/-- The body of the thread target spawned by `NovaAI.start_load`,
including its enclosing `try/except`: initial emissions, `unload`,
tokenizer step, weight step, success bookkeeping + warm-up/benchmark
block (whose own exceptions are swallowed by an inner
`except Exception: pass`), and the outer handler that clears
`is_loading` and emits "Load failed: e" when a step raised. -/
def load_worker (env : LoadEnv) (s0 : AIState) : AIState × List Event :=
  let evs0 := [emit_progress 10, Event.status "Beginning model load..."]
  let (s1, evs1) := unload env.cuda s0
  match tokenizer_step env s1 with
  | (some e, sT, evsT) =>
      ({ sT with is_loading := false },
       evs0 ++ evs1 ++ evsT ++ [Event.status ("Load failed: " ++ e)])
  | (none, s2, evsT) =>
    let s2 := { s2 with tokenizer := some s2.model_name }
    match weights_step env s2 with
    | (some e, sW, evsW) =>
        ({ sW with is_loading := false },
         evs0 ++ evs1 ++ evsT ++ evsW ++ [Event.status ("Load failed: " ++ e)])
    | (none, s3, evsW) =>
        let s4 := { s3 with model := some s3.model_name,
                            is_loaded := true, is_loading := false }
        let benchEvs := match env.warmup_exc with
          | some _ => ([] : List Event)
          | none => [Event.benchmark env.bench_tps]
        let s5 := start_idle_timer s4
        (s5, evs0 ++ evs1 ++ evsT ++ evsW ++
          [emit_progress 100, Event.status "Model ready"] ++ benchEvs ++
          [Event.loaded, vram_event env s4.force_cpu])

/-- `NovaAI.start_load`: under the lock, a no-op while already loaded or
loading; otherwise set `is_loading` and run the load worker (the worker
thread, collapsed to its overall effect). -/
def start_load (env : LoadEnv) (s : AIState) : AIState × List Event :=
  if s.is_loaded || s.is_loading then (s, [])
  else load_worker env { s with is_loading := true }

/-- `NovaAI.CHAT_TEMPLATES` + `_get_chat_template`: substring-match the
lowercased model key against the family markers, falling back to the
generic instruction-bracket template. -/
def get_chat_template (model_key : String) : String :=
  let key := model_key.toLower
  if strContainsSub key "mistral" then "<s>[INST] {prompt} [/INST]"
  else if strContainsSub key "phi" then "<|user|>\n{prompt}<|end|>\n<|assistant|>"
  else if strContainsSub key "deepseek" then "<|begin_of_sentence|>User: {prompt}\n\nAssistant:"
  else if strContainsSub key "qwen" then "<|im_start|>user\n{prompt}<|im_end|>\n<|im_start|>assistant\n"
  else "[INST] {prompt} [/INST]"

/-- The `gen_kwargs` dictionary `NovaAI.generate` builds: greedy decoding
(`do_sample=False`) for `temperature <= 0`; sampling with the given
temperature, `top_p=0.9` and `top_k=50` for `temperature > 0`. -/
def gen_kwargs (temperature : ℚ) (max_new_tokens : ℕ) : GenParams :=
  if 0 < temperature then
    { max_new_tokens := max_new_tokens, do_sample := true,
      temperature := some temperature, top_p := some (9/10), top_k := some 50 }
  else
    { max_new_tokens := max_new_tokens, do_sample := false,
      temperature := none, top_p := none, top_k := none }

/-- `NovaAI.generate`: the not-ready guard returns the sentinel before
touching anything; otherwise reset the idle timer, format the prompt with
the family template, run the engine, decode only the new tokens and strip
whitespace.  `torch.cuda.OutOfMemoryError` is caught specifically: the
CUDA cache is cleared and a distinguished message returned; any other
exception is caught and rendered as a generation-error message. -/
def generate (env : GenEnv) (rng : ℕ) (s : AIState) (prompt : String)
    (max_new_tokens : ℕ) (temperature : ℚ) : String × AIState × List Event :=
  if !s.is_loaded || s.model.isNone then ("⚠️ Model not ready.", s, [])
  else
    let s1 := start_idle_timer s
    let formatted := pyReplace (get_chat_template s.model_key) "{prompt}" prompt
    let params := gen_kwargs temperature max_new_tokens
    match env.fail with
    | some (.oom _) =>
        ("❌ Out of GPU memory. Try a shorter prompt or smaller model.", s1,
         [Event.empty_cache])
    | some (.exc e) => ("❌ Generation error: " ++ e, s1, [])
    | none =>
        let raw := if params.do_sample then env.sample formatted params rng
                   else env.greedy formatted
        (pyStrip raw, s1, [])

/-- `NovaAI.switch_model`: an unregistered key returns
`"Unknown model <key>"` at once, before any emission or mutation;
otherwise emit the switching status and 2%, repoint `model_key` /
`model_name`, `unload`, kick off `start_load`, and return
`"Loading <key>"`. -/
def switch_model (env : LoadEnv) (s : AIState) (new_key : String) :
    String × AIState × List Event :=
  match MODELS.lookup new_key with
  | none => ("Unknown model " ++ new_key, s, [])
  | some name =>
      let evs0 := [Event.status ("Switching to " ++ new_key ++ "..."),
                   emit_progress 2]
      let s1 := { s with model_key := new_key, model_name := name }
      let (s2, evs1) := unload env.cuda s1
      let (s3, evs2) := start_load env s2
      ("Loading " ++ new_key, s3, evs0 ++ evs1 ++ evs2)

end NovaAI

namespace LocalAI

/-- `LocalAI.__init__`: rejects an unregistered `model_key` (Python
raises `ValueError(f"Unknown model key: {model_key}")`), otherwise builds
the initial attribute state.  (`LocalAI` has no `_device` attribute; the
shared `device` field simply stays `none`.) -/
def mk (model_key : String) (force_cpu : Bool) (vram_limit_gb : Option ℚ)
    (idle_unload_seconds : ℤ) : Except String AIState :=
  match MODELS.lookup model_key with
  | none => .error ("Unknown model key: " ++ model_key)
  | some name =>
      .ok { model_key := model_key, model_name := name, model := none,
            tokenizer := none, tokenizer_cache := [], device := none,
            force_cpu := force_cpu, vram_limit_gb := vram_limit_gb,
            idle_unload_seconds := idle_unload_seconds,
            is_loaded := false, is_loading := false,
            idle_armed := false, timer_resets := 0 }

/-- `LocalAI.unload_model`: status + 5%, drop the weights handle (the
tokenizer and its cache are deliberately kept), GC pass, and when CUDA is
available clear the cache and run `ipc_collect`; the `finally` clause
nulls `model`, clears `is_loaded` and emits 15%. -/
def unload_model (cuda : Bool) (s : AIState) : AIState × List Event :=
  ({ s with model := none, is_loaded := false },
   [Event.status "Unloading model and freeing memory...", emit_progress 5,
    Event.gc_collect] ++
     (if cuda then [Event.empty_cache, Event.ipc_collect] else []) ++
     [emit_progress 15])

/-- `LocalAI._load_tokenizer`: status + 30%, cached tokenizer when
present (40%), else `AutoTokenizer.from_pretrained` — which may raise —
then cache and 40%. -/
def tokenizer_step (env : LoadEnv) (s : AIState) :
    Option String × AIState × List Event :=
  if s.model_name ∈ s.tokenizer_cache then
    (none, s,
     [Event.status "Loading tokenizer...", emit_progress 30, emit_progress 40])
  else
    match env.tokenizer_exc with
    | some e =>
        (some e, s, [Event.status "Loading tokenizer...", emit_progress 30])
    | none =>
        (none, { s with tokenizer_cache := s.model_name :: s.tokenizer_cache },
         [Event.status "Loading tokenizer...", emit_progress 30, emit_progress 40])

/-- `LocalAI._load_model`: status + 55%, `from_pretrained` (quantized on
GPU, plain on CPU) — which may raise — then 80% and the finalizing
status.  Unlike `NovaAI`, no device attribute is recorded. -/
def weights_step (env : LoadEnv) (s : AIState) :
    Option String × AIState × List Event :=
  match env.weights_exc with
  | some e =>
      (some e, s, [Event.status "Loading model weights...", emit_progress 55])
  | none =>
      (none, s,
       [Event.status "Loading model weights...", emit_progress 55,
        emit_progress 80, Event.status "Finalizing model setup..."])

/-- The body of the `_do_load` thread target in `LocalAI.start_load` with
its enclosing `try/except`: initial emissions (10%, status, 20%),
`unload_model`, tokenizer and weight steps with their `self.tokenizer` /
`self.model` write-backs, success bookkeeping, the benchmark block
(`_benchmark_tokens_per_second` swallows its own errors, so the
benchmark callback always fires on the success path), the loaded
callback and the idle timer; the outer handler emits "Load failed: e"
and clears `is_loading`. -/
def load_worker (env : LoadEnv) (s0 : AIState) : AIState × List Event :=
  let evs0 := [emit_progress 10, Event.status "Beginning load...", emit_progress 20]
  let (s1, evs1) := unload_model env.cuda s0
  match tokenizer_step env s1 with
  | (some e, sT, evsT) =>
      ({ sT with is_loading := false },
       evs0 ++ evs1 ++ evsT ++ [Event.status ("Load failed: " ++ e)])
  | (none, s2, evsT) =>
    let s2 := { s2 with tokenizer := some s2.model_name }
    match weights_step env s2 with
    | (some e, sW, evsW) =>
        ({ sW with is_loading := false },
         evs0 ++ evs1 ++ evsT ++ evsW ++ [Event.status ("Load failed: " ++ e)])
    | (none, s3, evsW) =>
        let s4 := { s3 with model := some s3.model_name,
                            is_loaded := true, is_loading := false }
        let s5 := start_idle_timer s4
        (s5, evs0 ++ evs1 ++ evsT ++ evsW ++
          [emit_progress 100, Event.status "Model ready",
           Event.benchmark env.bench_tps, Event.loaded])

/-- `LocalAI.start_load`: a no-op while already loading or loaded,
otherwise set `is_loading` and run the worker. -/
def start_load (env : LoadEnv) (s : AIState) : AIState × List Event :=
  if s.is_loading || s.is_loaded then (s, [])
  else load_worker env { s with is_loading := true }

/-- The keyword arguments `LocalAI.generate` passes to `model.generate`:
`do_sample=True` and `top_p=0.9` unconditionally, the temperature passed
through verbatim, and no `top_k`. -/
def gen_kwargs (temperature : ℚ) (max_new_tokens : ℕ) : GenParams :=
  { max_new_tokens := max_new_tokens, do_sample := true,
    temperature := some temperature, top_p := some (9/10), top_k := none }

/-- `LocalAI.generate`: not-ready guard (also checking the tokenizer),
idle-timer reset, fixed `[INST] ... [/INST]` wrapping, then the engine
call under a single generic `except Exception` handler — an
out-of-memory error takes the same path as any other exception: no cache
clear, message `"❌ Generation error: <e>"`.  On success the full decode
has the formatted prompt removed and is stripped. -/
def generate (env : GenEnv) (rng : ℕ) (s : AIState) (prompt : String)
    (max_new_tokens : ℕ) (temperature : ℚ) : String × AIState × List Event :=
  if !s.is_loaded || s.model.isNone || s.tokenizer.isNone then
    ("⚠️ Model not ready.", s, [])
  else
    let s1 := start_idle_timer s
    let formatted := "[INST] " ++ prompt ++ " [/INST]"
    let params := gen_kwargs temperature max_new_tokens
    match env.fail with
    | some (.oom e) => ("❌ Generation error: " ++ e, s1, [])
    | some (.exc e) => ("❌ Generation error: " ++ e, s1, [])
    | none =>
        let raw := env.sample formatted params rng
        (pyStrip (pyReplace raw formatted ""), s1, [])

/-- `LocalAI.switch_model`: an unregistered key returns
`"Unknown model: <key>"` at once; otherwise status + 1%, repoint the
keys, `unload_model`, `start_load`, and return `"Loading <key>..."`. -/
def switch_model (env : LoadEnv) (s : AIState) (new_key : String) :
    String × AIState × List Event :=
  match MODELS.lookup new_key with
  | none => ("Unknown model: " ++ new_key, s, [])
  | some name =>
      let evs0 := [Event.status ("Switching to " ++ new_key ++ "..."),
                   emit_progress 1]
      let s1 := { s with model_key := new_key, model_name := name }
      let (s2, evs1) := unload_model env.cuda s1
      let (s3, evs2) := start_load env s2
      ("Loading " ++ new_key ++ "...", s3, evs0 ++ evs1 ++ evs2)

end LocalAI

/-- Progress percentages carried by a trace, in emission order. -/
def progressValues (evs : List Event) : List ℕ :=
  evs.filterMap fun e => match e with
    | .progress v => some v
    | _ => none

/-- Status messages carried by a trace, in emission order. -/
def statusMsgs (evs : List Event) : List String :=
  evs.filterMap fun e => match e with
    | .status m => some m
    | _ => none

/-! ## Concrete fixtures used by witnesses and counterexamples -/

/-- The registry id behind the default key `"phi3-mini"`. -/
def phi3Name : String := "microsoft/Phi-3.5-mini-instruct"

/-- A freshly constructed manager (default key, CPU box, defaults as in
`__init__`): nothing loaded, nothing cached. -/
def exampleUnloaded : AIState :=
  { model_key := "phi3-mini", model_name := phi3Name, model := none,
    tokenizer := none, tokenizer_cache := [], device := none,
    force_cpu := false, vram_limit_gb := none, idle_unload_seconds := 600,
    is_loaded := false, is_loading := false, idle_armed := false,
    timer_resets := 0 }

/-- A manager in the `Ready` state with `"phi3-mini"` loaded on CPU. -/
def exampleReady : AIState :=
  { exampleUnloaded with
    model := some phi3Name
    tokenizer := some phi3Name
    tokenizer_cache := [phi3Name]
    device := some "cpu"
    is_loaded := true
    idle_armed := true
    timer_resets := 1 }

/-- A load environment where every external call succeeds (CPU box). -/
def okLoadEnv : LoadEnv :=
  { cuda := false, tokenizer_exc := none, weights_exc := none,
    warmup_exc := none, bench_tps := 12, vram_used := 0, vram_total := 0 }

/-- A generation environment whose engine succeeds; the sampled text
reveals the entropy draw, the greedy text does not. -/
def rngGenEnv : GenEnv :=
  { fail := none, greedy := fun _ => "G", sample := fun _ _ rng => toString rng }

/-- A generation environment where the engine raises
`torch.cuda.OutOfMemoryError`. -/
def oomGenEnv : GenEnv :=
  { fail := some (.oom "CUDA out of memory"), greedy := fun _ => "",
    sample := fun _ _ _ => "" }

/-! ## Evaluation lemmas for the budget selector -/

/-- Sorting the registry by descending footprint is the identity: the
declaration order is already strictly descending. -/
lemma candidates_eq : candidates = MODEL_VRAM_REQ_GB := by
  norm_num [candidates, sortByDesc, insertByDesc, MODEL_VRAM_REQ_GB]

/-- Closed form of the selection loop over the four-entry registry. -/
lemma findFit_eval (limit : ℚ) :
    findFit limit MODEL_VRAM_REQ_GB =
      if 6 ≤ limit then some "mistral-7b"
      else if 3 ≤ limit then some "phi3-mini"
      else if 2 ≤ limit then some "deepseek-1.5b"
      else if 3/2 ≤ limit then some "qwen2.5-1.5b"
      else none := by
  simp only [findFit, MODEL_VRAM_REQ_GB]

/-- The fallback of the selection: the first key of minimal footprint. -/
lemma minKey_eval : minKey MODEL_VRAM_REQ_GB = some "qwen2.5-1.5b" := by
  norm_num [minKey, minKeyAux, MODEL_VRAM_REQ_GB]

/-- Closed form of `select_best_fit` over the four-entry registry. -/
lemma select_best_fit_eval (limit : ℚ) :
    select_best_fit limit =
      if 6 ≤ limit then "mistral-7b"
      else if 3 ≤ limit then "phi3-mini"
      else if 2 ≤ limit then "deepseek-1.5b"
      else "qwen2.5-1.5b" := by
  rw [select_best_fit, candidates_eq, findFit_eval]
  split_ifs <;> simp [minKey_eval]

/-! ## Claims -/

/-- C1: for every non-negative limit, the selection loop shared by
`NovaAI.auto_select_model_key` and `LocalAI.auto_select_model_key`
returns the registry entry with the largest estimated footprint that is
at most the limit, and when no entry fits (including limit 0) it falls
back to the single smallest-footprint entry; `auto_select_model_key` is
exactly this selection applied to the effective limit. -/
theorem C1_best_fit_selection (limit : ℚ) (h0 : 0 ≤ limit) :
    ((∃ p ∈ MODEL_VRAM_REQ_GB, select_best_fit limit = p.1 ∧ p.2 ≤ limit ∧
        ∀ q ∈ MODEL_VRAM_REQ_GB, q.2 ≤ limit → q.2 ≤ p.2) ∨
      ((∀ q ∈ MODEL_VRAM_REQ_GB, limit < q.2) ∧
        ∃ p ∈ MODEL_VRAM_REQ_GB, select_best_fit limit = p.1 ∧
          ∀ q ∈ MODEL_VRAM_REQ_GB, p.2 ≤ q.2)) ∧
    ∀ vl d, auto_select_model_key vl d = select_best_fit (effective_limit vl d) := by
  refine ⟨?_, fun vl d => rfl⟩
  rcases le_or_lt 6 limit with h6 | h6
  · refine Or.inl ⟨("mistral-7b", 6), by norm_num [SARA.MODEL_VRAM_REQ_GB], ?_, h6, ?_⟩
    · simp [select_best_fit_eval, h6]
    · intro q hq hql
      fin_cases hq <;> norm_num
  · have h6n : ¬ (6 : ℚ) ≤ limit := not_le.mpr h6
    rcases le_or_lt 3 limit with h3 | h3
    · refine Or.inl ⟨("phi3-mini", 3), by norm_num [SARA.MODEL_VRAM_REQ_GB], ?_, h3, ?_⟩
      · simp [select_best_fit_eval, h6n, h3]
      · intro q hq hql
        fin_cases hq <;> norm_num at hql ⊢ <;> linarith
    · have h3n : ¬ (3 : ℚ) ≤ limit := not_le.mpr h3
      rcases le_or_lt 2 limit with h2 | h2
      · refine Or.inl ⟨("deepseek-1.5b", 2), by norm_num [SARA.MODEL_VRAM_REQ_GB], ?_, h2, ?_⟩
        · simp [select_best_fit_eval, h6n, h3n, h2]
        · intro q hq hql
          fin_cases hq <;> norm_num at hql ⊢ <;> linarith
      · have h2n : ¬ (2 : ℚ) ≤ limit := not_le.mpr h2
        rcases le_or_lt (3/2) limit with h15 | h15
        · refine Or.inl ⟨("qwen2.5-1.5b", 3/2), by norm_num [SARA.MODEL_VRAM_REQ_GB], ?_, h15, ?_⟩
          · simp [select_best_fit_eval, h6n, h3n, h2n]
          · intro q hq hql
            fin_cases hq <;> norm_num at hql ⊢ <;> linarith
        · refine Or.inr ⟨?_, ("qwen2.5-1.5b", 3/2), by norm_num [SARA.MODEL_VRAM_REQ_GB], ?_, ?_⟩
          · intro q hq
            fin_cases hq <;> norm_num <;> linarith
          · simp [select_best_fit_eval, h6n, h3n, h2n]
          · intro q hq
            fin_cases hq <;> norm_num

/-- Witness for C1 at the concrete limit 4: the 3 GB entry `"phi3-mini"`
is selected (Scenario A of the spec, shifted to this registry). -/
theorem C1_best_fit_selection_witness :
    (0 : ℚ) ≤ 4 ∧
    (((∃ p ∈ MODEL_VRAM_REQ_GB, select_best_fit 4 = p.1 ∧ p.2 ≤ 4 ∧
        ∀ q ∈ MODEL_VRAM_REQ_GB, q.2 ≤ 4 → q.2 ≤ p.2) ∨
      ((∀ q ∈ MODEL_VRAM_REQ_GB, (4 : ℚ) < q.2) ∧
        ∃ p ∈ MODEL_VRAM_REQ_GB, select_best_fit 4 = p.1 ∧
          ∀ q ∈ MODEL_VRAM_REQ_GB, p.2 ≤ q.2)) ∧
    ∀ vl d, auto_select_model_key vl d = select_best_fit (effective_limit vl d)) :=
  ⟨by norm_num, C1_best_fit_selection 4 (by norm_num)⟩

/-- C5 counterexample: with 4 GB detected and an 8 GB user ceiling (both
positive), the code's effective limit — `self.vram_limit_gb or detected`
— is 8, not `min(detected, ceiling) = 4`: the stored ceiling overrides
the detected value outright.  The spec-modelled `effective_limit_spec`
returns 4 there, so the claimed equality fails at this input. -/
theorem C5_effective_limit_counterexample :
    effective_limit (some 8) 4 = 8 ∧ effective_limit_spec (some 8) 4 = 4 ∧
    min (4 : ℚ) 8 = 4 ∧ (8 : ℚ) ≠ 4 := by
  refine ⟨rfl, ?_, by norm_num, by norm_num⟩
  norm_num [SARA.effective_limit_spec]

/-- C5 (amended): a set, nonzero ceiling IS the effective limit — it
coincides with `min(detected, ceiling)` only when the ceiling is at most
the detected value; with no ceiling (or a zero one) the effective limit
is the detected value, and with neither set (detected 0, no ceiling) it
is 0. -/
theorem C5_effective_limit_amended (c d : ℚ) :
    (c ≠ 0 → effective_limit (some c) d = c) ∧
    (0 < c → c ≤ d → effective_limit (some c) d = min d c) ∧
    effective_limit (some 0) d = d ∧
    effective_limit none d = d := by
  refine ⟨fun h => by simp [effective_limit, h], fun h1 h2 => ?_,
    by simp [SARA.effective_limit], rfl⟩
  rw [min_eq_right h2]
  simp [SARA.effective_limit, ne_of_gt h1]

/-- Witness for C5 (amended) at the concrete inputs (ceiling 8,
detected 4), (ceiling 2, detected 4) and (no ceiling, detected 4). -/
theorem C5_effective_limit_amended_witness :
    effective_limit (some 8) 4 = 8 ∧ effective_limit (some 2) 4 = min 4 2 ∧
    effective_limit none 4 = 4 :=
  ⟨(C5_effective_limit_amended 8 4).1 (by norm_num),
   (C5_effective_limit_amended 2 4).2.1 (by norm_num) (by norm_num),
   (C5_effective_limit_amended 0 4).2.2.2⟩

/-- C10: `set_vram_limit(gb)` stores `gb` itself exactly when `gb` is a
positive number; `None`, zero and negative arguments all clear the
ceiling to `None`, so selection afterwards uses the detected value rather
than a zero budget. -/
theorem C10_set_vram_limit (g d : ℚ) :
    (0 < g → set_vram_limit (some g) = some g) ∧
    (g ≤ 0 → set_vram_limit (some g) = none) ∧
    set_vram_limit none = none ∧
    (g ≤ 0 → auto_select_model_key (set_vram_limit (some g)) d = select_best_fit d) := by
  refine ⟨fun h => by simp [set_vram_limit, not_le.mpr h], fun h => by simp [set_vram_limit, h],
    rfl, fun h => ?_⟩
  simp [set_vram_limit, h, auto_select_model_key, effective_limit]

/-- Witness for C10 at the concrete arguments 5, −3 and 0 (detected 4). -/
theorem C10_set_vram_limit_witness :
    set_vram_limit (some 5) = some 5 ∧ set_vram_limit (some (-3)) = none ∧
    auto_select_model_key (set_vram_limit (some 0)) 4 = select_best_fit 4 :=
  ⟨(C10_set_vram_limit 5 0).1 (by norm_num),
   (C10_set_vram_limit (-3) 0).2.1 (by norm_num),
   (C10_set_vram_limit 0 4).2.2.2 (by norm_num)⟩

/-- C3: `generate` called while no model is loaded returns the sentinel
`"⚠️ Model not ready."` without raising (the embedded function is total)
and with the manager state returned exactly as it was — the not-ready
guard runs even before the idle-timer reset — and no events emitted.
Holds for both `NovaAI.generate` and `LocalAI.generate`, for every
prompt, parameter choice and engine environment. -/
theorem C3_generate_not_ready (env : GenEnv) (rng : ℕ) (s : AIState)
    (prompt : String) (mnt : ℕ) (temp : ℚ) (h : s.is_loaded = false) :
    NovaAI.generate env rng s prompt mnt temp = ("⚠️ Model not ready.", s, []) ∧
    LocalAI.generate env rng s prompt mnt temp = ("⚠️ Model not ready.", s, []) := by
  constructor <;> simp [NovaAI.generate, LocalAI.generate, h]

/-- Witness for C3: a freshly constructed (unloaded) manager and a
concrete prompt. -/
theorem C3_generate_not_ready_witness :
    exampleUnloaded.is_loaded = false ∧
    NovaAI.generate rngGenEnv 0 exampleUnloaded "hello" 8 0 =
      ("⚠️ Model not ready.", exampleUnloaded, []) ∧
    LocalAI.generate rngGenEnv 0 exampleUnloaded "hello" 8 0 =
      ("⚠️ Model not ready.", exampleUnloaded, []) :=
  ⟨rfl, (C3_generate_not_ready rngGenEnv 0 exampleUnloaded "hello" 8 0 rfl).1,
        (C3_generate_not_ready rngGenEnv 0 exampleUnloaded "hello" 8 0 rfl).2⟩

/-- C8: a key absent from the registry makes `switch_model` fail
synchronously — the unknown-model error result is returned before any
emission or mutation, so the state (current key, loaded model, flags) is
returned untouched — and makes the constructor (the id-taking entry
point behind `start_load`) reject with its unknown-model error.  Holds
for both classes (their message texts differ slightly). -/
theorem C8_unknown_model (env : LoadEnv) (s : AIState) (key : String)
    (fc : Bool) (vl : Option ℚ) (ius : ℤ) (h : MODELS.lookup key = none) :
    NovaAI.switch_model env s key = ("Unknown model " ++ key, s, []) ∧
    LocalAI.switch_model env s key = ("Unknown model: " ++ key, s, []) ∧
    NovaAI.mk key fc vl ius = Except.error "Unknown model key" ∧
    LocalAI.mk key fc vl ius = Except.error ("Unknown model key: " ++ key) := by
  simp [NovaAI.switch_model, LocalAI.switch_model, NovaAI.mk, LocalAI.mk, h]

/-- Witness for C8 at the concrete unregistered key `"gpt-4"`. -/
theorem C8_unknown_model_witness :
    MODELS.lookup "gpt-4" = none ∧
    NovaAI.switch_model okLoadEnv exampleReady "gpt-4" =
      ("Unknown model gpt-4", exampleReady, []) ∧
    NovaAI.mk "gpt-4" false none 600 = Except.error "Unknown model key" :=
  ⟨by decide,
   (C8_unknown_model okLoadEnv exampleReady "gpt-4" false none 600 (by decide)).1,
   (C8_unknown_model okLoadEnv exampleReady "gpt-4" false none 600 (by decide)).2.2.1⟩

/-- Re-arming the idle timer does not change the loaded flag. -/
lemma start_idle_timer_is_loaded (s : AIState) :
    (start_idle_timer s).is_loaded = s.is_loaded := by
  rw [start_idle_timer]; split <;> rfl

/-- Re-arming the idle timer does not change the weights handle. -/
lemma start_idle_timer_model (s : AIState) :
    (start_idle_timer s).model = s.model := by
  rw [start_idle_timer]; split <;> rfl

/-- C9 counterexample: `LocalAI.generate` passes `do_sample=True` even at
temperature 0, so the dispatch is not greedy and the output consumes
entropy: against the same loaded model, the same prompt and
`temperature=0`, two calls whose engine draws differ return different
text ("0" vs "1" under an engine that reveals the draw). -/
theorem C9_greedy_dispatch_counterexample :
    (LocalAI.gen_kwargs 0 8).do_sample = true ∧
    (LocalAI.generate rngGenEnv 0 exampleReady "hi" 8 0).1 = "0" ∧
    (LocalAI.generate rngGenEnv 1 exampleReady "hi" 8 0).1 = "1" := by
  refine ⟨rfl, ?_, ?_⟩ <;> decide

/-- C9 (amended): `NovaAI.generate` dispatches greedy decoding
(`do_sample=False`) for every `temperature <= 0` — so its result is
independent of the engine's entropy draw and two calls with the same
prompt, token budget and loaded model return identical text — and for
`temperature > 0` dispatches sampling with `top_p=0.9` and `top_k=50`;
`LocalAI.generate`, by contrast, always dispatches sampling
(`do_sample=True`, `top_p=0.9`, no `top_k`), regardless of temperature. -/
theorem C9_decoding_dispatch_amended (env : GenEnv) (rng₁ rng₂ : ℕ)
    (s : AIState) (p : String) (mnt : ℕ) (temp : ℚ) (h : temp ≤ 0) :
    NovaAI.generate env rng₁ s p mnt temp = NovaAI.generate env rng₂ s p mnt temp ∧
    (NovaAI.gen_kwargs temp mnt).do_sample = false ∧
    (∀ t : ℚ, 0 < t → NovaAI.gen_kwargs t mnt =
      { max_new_tokens := mnt, do_sample := true, temperature := some t,
        top_p := some (9/10), top_k := some 50 }) ∧
    (∀ t : ℚ, LocalAI.gen_kwargs t mnt =
      { max_new_tokens := mnt, do_sample := true, temperature := some t,
        top_p := some (9/10), top_k := none }) := by
  refine ⟨?_, ?_, fun t ht => by simp [NovaAI.gen_kwargs, ht], fun t => rfl⟩
  · simp [NovaAI.generate, NovaAI.gen_kwargs, not_lt.mpr h]
  · simp [NovaAI.gen_kwargs, not_lt.mpr h]

/-- Witness for C9 (amended): temperature 0, two different entropy draws,
the loaded example manager. -/
theorem C9_decoding_dispatch_amended_witness :
    (0 : ℚ) ≤ 0 ∧
    NovaAI.generate rngGenEnv 0 exampleReady "hi" 8 0 =
      NovaAI.generate rngGenEnv 1 exampleReady "hi" 8 0 :=
  ⟨le_refl 0,
   (C9_decoding_dispatch_amended rngGenEnv 0 1 exampleReady "hi" 8 0 (le_refl 0)).1⟩

/-- C4 counterexample: in `LocalAI.generate` an out-of-accelerator-memory
error is caught only by the generic `except Exception` handler — the
returned text is the generic generation-error message, not a
distinguished out-of-memory message, and no accelerator-cache clear is
performed. -/
theorem C4_oom_counterexample :
    (LocalAI.generate oomGenEnv 0 exampleReady "hi" 8 (7/10)).1 =
      "❌ Generation error: CUDA out of memory" ∧
    Event.empty_cache ∉ (LocalAI.generate oomGenEnv 0 exampleReady "hi" 8 (7/10)).2.2 := by
  refine ⟨?_, ?_⟩ <;> decide

/-- C4 (amended): when the engine raises out-of-accelerator-memory during
generation, `NovaAI.generate` catches it, clears the accelerator cache,
and returns the distinguished out-of-memory message, with the manager
still loaded (same weights handle) afterwards; `LocalAI.generate`
catches it too and also stays loaded, but through its generic handler:
the returned text is the generic generation-error string and the cache
is not cleared. -/
theorem C4_oom_recovery_amended (env : GenEnv) (rng : ℕ) (s : AIState)
    (p : String) (mnt : ℕ) (temp : ℚ) (e : String)
    (h1 : s.is_loaded = true) (h2 : s.model ≠ none) (h3 : s.tokenizer ≠ none)
    (hf : env.fail = some (.oom e)) :
    (NovaAI.generate env rng s p mnt temp).1 =
      "❌ Out of GPU memory. Try a shorter prompt or smaller model." ∧
    Event.empty_cache ∈ (NovaAI.generate env rng s p mnt temp).2.2 ∧
    (NovaAI.generate env rng s p mnt temp).2.1.is_loaded = true ∧
    (NovaAI.generate env rng s p mnt temp).2.1.model = s.model ∧
    (LocalAI.generate env rng s p mnt temp).1 = "❌ Generation error: " ++ e ∧
    Event.empty_cache ∉ (LocalAI.generate env rng s p mnt temp).2.2 ∧
    (LocalAI.generate env rng s p mnt temp).2.1.is_loaded = true := by
  simp [NovaAI.generate, LocalAI.generate, h1, h2, h3, hf,
    Option.isNone_iff_eq_none, start_idle_timer_is_loaded, start_idle_timer_model]

/-- Witness for C4 (amended): the loaded example manager and an engine
raising `torch.cuda.OutOfMemoryError`. -/
theorem C4_oom_recovery_amended_witness :
    (NovaAI.generate oomGenEnv 0 exampleReady "hi" 8 (7/10)).1 =
      "❌ Out of GPU memory. Try a shorter prompt or smaller model." ∧
    Event.empty_cache ∈ (NovaAI.generate oomGenEnv 0 exampleReady "hi" 8 (7/10)).2.2 ∧
    (NovaAI.generate oomGenEnv 0 exampleReady "hi" 8 (7/10)).2.1.is_loaded = true := by
  have h := C4_oom_recovery_amended oomGenEnv 0 exampleReady "hi" 8 (7/10)
    "CUDA out of memory" rfl (by decide) (by decide) rfl
  exact ⟨h.1, h.2.1, h.2.2.1⟩

/-- C7 counterexample: `switch_model` has no same-id special case.
Called with the currently loaded model's own key while `Ready`, it
returns `"Loading phi3-mini"` — not an "already using this model"
status — and its trace contains the unload emission: the loaded model is
torn down and reloaded. -/
theorem C7_same_id_switch_counterexample :
    (NovaAI.switch_model okLoadEnv exampleReady "phi3-mini").1 = "Loading phi3-mini" ∧
    Event.status "Unloading model..." ∈
      (NovaAI.switch_model okLoadEnv exampleReady "phi3-mini").2.2 ∧
    exampleReady.model_key = "phi3-mini" ∧ exampleReady.is_loaded = true := by
  refine ⟨?_, ?_, rfl, rfl⟩ <;> decide

/-- Whatever the environment and entry state, the `NovaAI` load worker
opens with its "Beginning model load..." status: its presence in a trace
marks that a fresh load was started. -/
lemma nova_begin_status (env : LoadEnv) (s : AIState) :
    Event.status "Beginning model load..." ∈ (NovaAI.load_worker env s).2 := by
  by_cases hc : s.model_name ∈ s.tokenizer_cache <;>
    rcases htok : env.tokenizer_exc with _ | e1 <;>
      rcases hw : env.weights_exc with _ | e2 <;>
        simp [NovaAI.load_worker, NovaAI.tokenizer_step, NovaAI.weights_step,
          NovaAI.unload, hc, htok, hw]

/-- Whatever the environment and entry state, the `LocalAI` load worker
opens with its "Beginning load..." status. -/
lemma local_begin_status (env : LoadEnv) (s : AIState) :
    Event.status "Beginning load..." ∈ (LocalAI.load_worker env s).2 := by
  by_cases hc : s.model_name ∈ s.tokenizer_cache <;>
    rcases htok : env.tokenizer_exc with _ | e1 <;>
      rcases hw : env.weights_exc with _ | e2 <;>
        simp [LocalAI.load_worker, LocalAI.tokenizer_step, LocalAI.weights_step,
          LocalAI.unload_model, hc, htok, hw]

/-- C7 (amended): `switch_model(new_id)` with `new_id` equal to the
current id while `Ready` is handled like any other switch in both
classes: the switching status is emitted, the current model is fully
unloaded (the unload status emission occurs in the trace) and a fresh
load is started (the load worker's "beginning" status occurs in the
trace); the call returns `"Loading <id>"` in `NovaAI` and
`"Loading <id>..."` in `LocalAI` — never an "already using this model"
status. -/
theorem C7_same_id_switch_amended (env : LoadEnv) (s : AIState)
    (h1 : s.is_loaded = true) (h2 : s.is_loading = false)
    (h3 : MODELS.lookup s.model_key = some s.model_name) :
    (NovaAI.switch_model env s s.model_key).1 = "Loading " ++ s.model_key ∧
    Event.status ("Switching to " ++ s.model_key ++ "...") ∈
      (NovaAI.switch_model env s s.model_key).2.2 ∧
    Event.status "Unloading model..." ∈ (NovaAI.switch_model env s s.model_key).2.2 ∧
    Event.status "Beginning model load..." ∈ (NovaAI.switch_model env s s.model_key).2.2 ∧
    (LocalAI.switch_model env s s.model_key).1 = "Loading " ++ s.model_key ++ "..." ∧
    Event.status ("Switching to " ++ s.model_key ++ "...") ∈
      (LocalAI.switch_model env s s.model_key).2.2 ∧
    Event.status "Unloading model and freeing memory..." ∈
      (LocalAI.switch_model env s s.model_key).2.2 ∧
    Event.status "Beginning load..." ∈ (LocalAI.switch_model env s s.model_key).2.2 := by
  refine ⟨?_, ?_, ?_, ?_, ?_, ?_, ?_, ?_⟩ <;>
    simp [NovaAI.switch_model, LocalAI.switch_model, h2, h3,
      NovaAI.unload, LocalAI.unload_model, NovaAI.start_load, LocalAI.start_load,
      nova_begin_status, local_begin_status]

/-- Witness for C7 (amended): the loaded example manager switched to its
own key, in both classes. -/
theorem C7_same_id_switch_amended_witness :
    (NovaAI.switch_model okLoadEnv exampleReady exampleReady.model_key).1 =
      "Loading " ++ exampleReady.model_key ∧
    Event.status "Unloading model..." ∈
      (NovaAI.switch_model okLoadEnv exampleReady exampleReady.model_key).2.2 ∧
    (LocalAI.switch_model okLoadEnv exampleReady exampleReady.model_key).1 =
      "Loading " ++ exampleReady.model_key ++ "..." ∧
    Event.status "Unloading model and freeing memory..." ∈
      (LocalAI.switch_model okLoadEnv exampleReady exampleReady.model_key).2.2 := by
  have h := C7_same_id_switch_amended okLoadEnv exampleReady rfl rfl (by decide)
  exact ⟨h.1, h.2.2.1, h.2.2.2.2.1, h.2.2.2.2.2.2.1⟩

/-- A load environment whose warm-up/benchmark block raises. -/
def warmupFailEnv : LoadEnv :=
  { okLoadEnv with warmup_exc := some "warmup boom" }

/-- C2 counterexample: an exception thrown inside the load worker during
the warm-up/benchmark block (step (d), after the weights are in) is
swallowed by the inner `except Exception: pass` — the manager ends
loaded, the weights handle is retained, and the emitted statuses contain
"Model ready" and no failure message, contradicting the claim that every
worker exception ends in `Unloaded` with a failure status. -/
theorem C2_load_failure_counterexample :
    (NovaAI.start_load warmupFailEnv exampleUnloaded).1.is_loaded = true ∧
    (NovaAI.start_load warmupFailEnv exampleUnloaded).1.model = some phi3Name ∧
    statusMsgs (NovaAI.start_load warmupFailEnv exampleUnloaded).2 =
      ["Beginning model load...", "Unloading model...", "Loading tokenizer...",
       "Loading model weights...", "Finalizing...", "Model ready"] := by
  refine ⟨?_, ?_, ?_⟩ <;> decide

/-- C2 (amended): an exception raised during the unload/tokenizer/weight
phase of the load worker — i.e. before the worker marks the manager
loaded — is caught at the worker boundary (the embedded worker returns
normally): the final state is `Unloaded` (`is_loaded` false, `is_loading`
cleared, no weights handle), and a `"Load failed: <e>"` status callback
is emitted.  Exceptions in the later warm-up/benchmark block are instead
swallowed silently, leaving the manager loaded (see the counterexample).
Proved for both `NovaAI` and `LocalAI`. -/
theorem C2_load_failure_recovery_amended (env : LoadEnv) (s : AIState) (e : String)
    (hl : s.is_loaded = false) (hg : s.is_loading = false)
    (hfail : (s.model_name ∉ s.tokenizer_cache ∧ env.tokenizer_exc = some e) ∨
             ((s.model_name ∈ s.tokenizer_cache ∨ env.tokenizer_exc = none) ∧
               env.weights_exc = some e)) :
    (NovaAI.start_load env s).1.is_loaded = false ∧
    (NovaAI.start_load env s).1.model = none ∧
    (NovaAI.start_load env s).1.is_loading = false ∧
    Event.status ("Load failed: " ++ e) ∈ (NovaAI.start_load env s).2 ∧
    (LocalAI.start_load env s).1.is_loaded = false ∧
    (LocalAI.start_load env s).1.model = none ∧
    (LocalAI.start_load env s).1.is_loading = false ∧
    Event.status ("Load failed: " ++ e) ∈ (LocalAI.start_load env s).2 := by
  rcases hfail with ⟨hmem, htok⟩ | ⟨htokok, hw⟩
  · simp [NovaAI.start_load, LocalAI.start_load, NovaAI.load_worker, LocalAI.load_worker,
      NovaAI.tokenizer_step, LocalAI.tokenizer_step, NovaAI.unload, LocalAI.unload_model,
      hl, hg, hmem, htok]
  · by_cases hc : s.model_name ∈ s.tokenizer_cache
    · simp [NovaAI.start_load, LocalAI.start_load, NovaAI.load_worker, LocalAI.load_worker,
        NovaAI.tokenizer_step, LocalAI.tokenizer_step, NovaAI.weights_step, LocalAI.weights_step,
        NovaAI.unload, LocalAI.unload_model, hl, hg, hc, hw]
    · have htok : env.tokenizer_exc = none := by
        rcases htokok with h | h
        · exact absurd h hc
        · exact h
      simp [NovaAI.start_load, LocalAI.start_load, NovaAI.load_worker, LocalAI.load_worker,
        NovaAI.tokenizer_step, LocalAI.tokenizer_step, NovaAI.weights_step, LocalAI.weights_step,
        NovaAI.unload, LocalAI.unload_model, hl, hg, hc, htok, hw]

/-- Witness for C2 (amended): a weight-load failure on the fresh example
manager. -/
theorem C2_load_failure_recovery_amended_witness :
    (NovaAI.start_load { okLoadEnv with weights_exc := some "disk full" }
        exampleUnloaded).1.is_loaded = false ∧
    Event.status ("Load failed: " ++ "disk full") ∈
      (NovaAI.start_load { okLoadEnv with weights_exc := some "disk full" }
        exampleUnloaded).2 := by
  have h := C2_load_failure_recovery_amended
    { okLoadEnv with weights_exc := some "disk full" } exampleUnloaded "disk full"
    rfl rfl (Or.inr ⟨Or.inr rfl, rfl⟩)
  exact ⟨h.1, h.2.2.2.1⟩

/-- The progress percentages a `NovaAI` load operation emits, by failure
point: the tokenizer raising cuts the trace at 30, the weight load
raising cuts it at 55, and a full load runs to 100.  In every case the
second emission (5, from the unload step inside the worker) undercuts
the initial 10. -/
lemma nova_progress_trace (env : LoadEnv) (s : AIState)
    (hl : s.is_loaded = false) (hg : s.is_loading = false) :
    progressValues (NovaAI.start_load env s).2 =
      if s.model_name ∉ s.tokenizer_cache ∧ env.tokenizer_exc.isSome then
        [10, 5, 15, 30]
      else if env.weights_exc.isSome then [10, 5, 15, 30, 40, 55]
      else [10, 5, 15, 30, 40, 55, 80, 100] := by
  by_cases hc : s.model_name ∈ s.tokenizer_cache <;>
    rcases htok : env.tokenizer_exc with _ | e1 <;>
      rcases hw : env.weights_exc with _ | e2 <;>
        rcases hwu : env.warmup_exc with _ | e3 <;>
          simp [NovaAI.start_load, hl, hg, NovaAI.load_worker, NovaAI.tokenizer_step,
            NovaAI.weights_step, NovaAI.unload, NovaAI.vram_event, emit_progress,
            progressValues, hc, htok, hw, hwu] <;>
          rintro a - (rfl | rfl) <;> rfl

/-- The status messages a fully successful `NovaAI` load emits, one per
step of the worker. -/
lemma nova_status_trace (env : LoadEnv) (s : AIState)
    (hl : s.is_loaded = false) (hg : s.is_loading = false)
    (htokok : s.model_name ∈ s.tokenizer_cache ∨ env.tokenizer_exc = none)
    (hw : env.weights_exc = none) :
    statusMsgs (NovaAI.start_load env s).2 =
      ["Beginning model load...", "Unloading model...", "Loading tokenizer...",
       "Loading model weights...", "Finalizing...", "Model ready"] := by
  by_cases hc : s.model_name ∈ s.tokenizer_cache <;>
    rcases htok : env.tokenizer_exc with _ | e1 <;>
      rcases hwu : env.warmup_exc with _ | e3 <;>
        simp_all [NovaAI.start_load, NovaAI.load_worker, NovaAI.tokenizer_step,
          NovaAI.weights_step, NovaAI.unload, NovaAI.vram_event, emit_progress,
          statusMsgs] <;>
        rintro a - (rfl | rfl) <;> rfl

/-- The progress percentages a `LocalAI` load operation emits, by failure
point; the worker's opening emissions are 10 and 20, and the unload step
inside it then dips to 5. -/
lemma local_progress_trace (env : LoadEnv) (s : AIState)
    (hl : s.is_loaded = false) (hg : s.is_loading = false) :
    progressValues (LocalAI.start_load env s).2 =
      if s.model_name ∉ s.tokenizer_cache ∧ env.tokenizer_exc.isSome then
        [10, 20, 5, 15, 30]
      else if env.weights_exc.isSome then [10, 20, 5, 15, 30, 40, 55]
      else [10, 20, 5, 15, 30, 40, 55, 80, 100] := by
  by_cases hc : s.model_name ∈ s.tokenizer_cache <;>
    rcases htok : env.tokenizer_exc with _ | e1 <;>
      rcases hw : env.weights_exc with _ | e2 <;>
        simp [LocalAI.start_load, hl, hg, LocalAI.load_worker, LocalAI.tokenizer_step,
          LocalAI.weights_step, LocalAI.unload_model, emit_progress,
          progressValues, hc, htok, hw] <;>
        rintro a - (rfl | rfl) <;> rfl

/-- The status messages a fully successful `LocalAI` load emits, one per
step of the worker. -/
lemma local_status_trace (env : LoadEnv) (s : AIState)
    (hl : s.is_loaded = false) (hg : s.is_loading = false)
    (htokok : s.model_name ∈ s.tokenizer_cache ∨ env.tokenizer_exc = none)
    (hw : env.weights_exc = none) :
    statusMsgs (LocalAI.start_load env s).2 =
      ["Beginning load...", "Unloading model and freeing memory...",
       "Loading tokenizer...", "Loading model weights...",
       "Finalizing model setup...", "Model ready"] := by
  by_cases hc : s.model_name ∈ s.tokenizer_cache <;>
    rcases htok : env.tokenizer_exc with _ | e1 <;>
      simp_all [LocalAI.start_load, LocalAI.load_worker, LocalAI.tokenizer_step,
        LocalAI.weights_step, LocalAI.unload_model, emit_progress, statusMsgs] <;>
      rintro a - (rfl | rfl) <;> rfl

/-- C6 counterexample: on a fully successful load the progress callbacks
receive 10, 5, 15, 30, 40, 55, 80, 100 — the worker's unload step emits
5 right after the initial 10, so the sequence is not monotonically
non-decreasing. -/
theorem C6_progress_monotonic_counterexample :
    progressValues (NovaAI.start_load okLoadEnv exampleUnloaded).2 =
      [10, 5, 15, 30, 40, 55, 80, 100] ∧
    ¬ List.Chain' (· ≤ ·) (progressValues (NovaAI.start_load okLoadEnv exampleUnloaded).2) := by
  have h1 : progressValues (NovaAI.start_load okLoadEnv exampleUnloaded).2 =
      [10, 5, 15, 30, 40, 55, 80, 100] := by decide
  exact ⟨h1, by rw [h1]; simp⟩

/-- C6 (amended): in every load operation the progress sequence becomes
monotonically non-decreasing once the worker's opening "beginning"
emissions are past — one emission of 10 in `NovaAI`, 10 then 20 in
`LocalAI` — the only violation of full monotonicity being the dip from
those opening values down to the unload step's 5; on a successful load
the sequence ends at 100, each step also emitting a human-readable
status string. -/
theorem C6_progress_amended (env : LoadEnv) (s : AIState)
    (hl : s.is_loaded = false) (hg : s.is_loading = false) :
    List.Chain' (· ≤ ·) ((progressValues (NovaAI.start_load env s).2).drop 1) ∧
    List.Chain' (· ≤ ·) ((progressValues (LocalAI.start_load env s).2).drop 2) ∧
    ((s.model_name ∈ s.tokenizer_cache ∨ env.tokenizer_exc = none) →
      env.weights_exc = none →
      (progressValues (NovaAI.start_load env s).2).getLast? = some 100 ∧
      statusMsgs (NovaAI.start_load env s).2 =
        ["Beginning model load...", "Unloading model...", "Loading tokenizer...",
         "Loading model weights...", "Finalizing...", "Model ready"] ∧
      (progressValues (LocalAI.start_load env s).2).getLast? = some 100 ∧
      statusMsgs (LocalAI.start_load env s).2 =
        ["Beginning load...", "Unloading model and freeing memory...",
         "Loading tokenizer...", "Loading model weights...",
         "Finalizing model setup...", "Model ready"]) := by
  have h := nova_progress_trace env s hl hg
  have h2 := local_progress_trace env s hl hg
  refine ⟨?_, ?_, ?_⟩
  · rw [h]; split_ifs <;> simp
  · rw [h2]; split_ifs <;> simp
  · intro htokok hw
    have hcond1 : ¬ (s.model_name ∉ s.tokenizer_cache ∧ env.tokenizer_exc.isSome) := by
      rcases htokok with hmem | hnone
      · simp [hmem]
      · simp [hnone]
    refine ⟨?_, nova_status_trace env s hl hg htokok hw, ?_,
      local_status_trace env s hl hg htokok hw⟩
    · rw [h, if_neg hcond1, if_neg (by simp [hw])]
      rfl
    · rw [h2, if_neg hcond1, if_neg (by simp [hw])]
      rfl

/-- Witness for C6 (amended): the fully successful load on the fresh
example manager, for both classes. -/
theorem C6_progress_amended_witness :
    List.Chain' (· ≤ ·)
      ((progressValues (NovaAI.start_load okLoadEnv exampleUnloaded).2).drop 1) ∧
    List.Chain' (· ≤ ·)
      ((progressValues (LocalAI.start_load okLoadEnv exampleUnloaded).2).drop 2) ∧
    (progressValues (NovaAI.start_load okLoadEnv exampleUnloaded).2).getLast? =
      some 100 ∧
    (progressValues (LocalAI.start_load okLoadEnv exampleUnloaded).2).getLast? =
      some 100 := by
  have h := C6_progress_amended okLoadEnv exampleUnloaded rfl rfl
  exact ⟨h.1, h.2.1, (h.2.2 (Or.inr rfl) rfl).1, (h.2.2 (Or.inr rfl) rfl).2.2.1⟩

end SARA
